import Mathlib

/-!
Verification of the observer core of `src/main.rs` (DeviceAware).

The source wraps two Windows power-notification registrations in RAII
observer types.  We shallowly embed:

* the pure decoders `PowerSourceType::from`, `describe_effective_mode`;
* the two callback trampolines `EffectiveModeObserver::static_cb` and
  `PowerSettingObserver::static_callback` as pure functions whose result
  records which value (if any) the stored closure was dispatched with,
  together with the trampoline's `u32` status return;
* the observer lifecycle (constructor plus `Drop`) as an event trace over
  allocation / native-registration / native-unregistration / free events,
  parameterised by the outcome of the native registration call.  The
  native layer itself is external to the repository: a successful
  registration yields an opaque handle, a failed one leaves the
  caller-initialised null handle untouched (for
  `PowerRegisterForEffectivePowerModeNotifications`) or returns `Err`
  (for `RegisterPowerSettingNotification`); both are modelled by an
  `Option Nat` registration result.

Null pointers are modelled by `Option`: a null `context` or `setting`
pointer is `none`.  The bytes actually readable at the payload's `Data`
address are a `List Nat`; the slice built by
`slice::from_raw_parts(data_ptr, DataLength)` is modelled as
`Data.take DataLength`, so a memory region holding fewer bytes than the
declared length yields a short slice (the shortfall the source guards
with `unwrap_or`).
-/

namespace DeviceAware

/-- `enum PowerSourceType` from `src/main.rs`. -/
inductive PowerSourceType where
  | AC
  | Battery
  | ShortTerm
  | Unknown
  deriving DecidableEq, Repr

/-- `impl From<u32> for PowerSourceType` from `src/main.rs`:
`0 => AC, 1 => Battery, 2 => ShortTerm, _ => Unknown`. -/
def PowerSourceType.from_u32 (val : Nat) : PowerSourceType :=
  match val with
  | 0 => PowerSourceType.AC
  | 1 => PowerSourceType.Battery
  | 2 => PowerSourceType.ShortTerm
  | _ => PowerSourceType.Unknown

/-- `describe_effective_mode` from `src/main.rs`.  `EFFECTIVE_POWER_MODE`
is a newtype over `i32`; the Rust code matches on its raw field
`mode.0`, so the argument is an `Int`. -/
def describe_effective_mode (mode : Int) : String :=
  if mode = 0 then "滑块: 最左 (节电)"
  else if mode = 1 then "滑块: 较左 (更好电池)"
  else if mode = 2 then "滑块: 中间 (平衡)"
  else if mode = 3 then "滑块: 较右 (最佳性能)"
  else if mode = 4 then "滑块: 最右 (最大性能)"
  else if mode = 5 then "滑块: 游戏模式"
  else "滑块: 未知"

/-- `PBT_POWERSETTINGCHANGE` (`windows` crate constant, `0x8013`). -/
def PBT_POWERSETTINGCHANGE : Nat := 32787

/-- `std::mem::size_of::<u32>()`. -/
def size_of_u32 : Nat := 4

/-- `POWERBROADCAST_SETTING` as the trampoline reads it: the setting
GUID (opaque, never read by the trampoline), the declared byte length
`DataLength`, and the bytes actually readable at the `Data` address. -/
structure POWERBROADCAST_SETTING where
  PowerSetting : Nat
  DataLength : Nat
  Data : List Nat
  deriving DecidableEq, Repr

/-- `<&[u8] as TryInto<[u8; 4]>>::try_into`: succeeds exactly when the
slice holds four bytes. -/
def try_into_4 (s : List Nat) : Option (List Nat) :=
  if s.length = 4 then some s else none

/-- `u32::from_ne_bytes` on four bytes.  Windows targets are
little-endian, so native-endian decoding is the little-endian value. -/
def u32_from_ne_bytes (b : List Nat) : Nat :=
  match b with
  | [b0, b1, b2, b3] => b0 + 256 * b1 + 65536 * b2 + 16777216 * b3
  | _ => 0

/-- `EffectiveModeObserver::static_cb` from `src/main.rs`.  Returns the
value the stored closure is invoked with, or `none` when no dispatch
occurs (null context). -/
def EffectiveModeObserver.static_cb (mode : Int) (context : Option Unit) : Option Int :=
  match context with
  | some _ => some mode
  | none => none

/-- `PowerSettingObserver::static_callback` from `src/main.rs`.  The
first component records the `u32` value the stored closure is invoked
with (`none` when no dispatch occurs); the second is the trampoline's
`u32` status return. -/
def PowerSettingObserver.static_callback (context : Option Unit) (type_ : Nat)
    (setting : Option POWERBROADCAST_SETTING) : Option Nat × Nat :=
  match context, setting with
  | some _, some p_setting =>
    if type_ = PBT_POWERSETTINGCHANGE then
      if p_setting.DataLength = size_of_u32 then
        let data_slice := p_setting.Data.take p_setting.DataLength
        let val := u32_from_ne_bytes ((try_into_4 data_slice).getD [0, 0, 0, 0])
        (some val, 0)
      else (none, 0)
    else (none, 0)
  | _, _ => (none, 0)

/-- Allocation-tracking events for the observer lifecycle: the boxed
closure context's allocation (`Box::into_raw(Box::new(callback))`), the
native register / unregister calls, and the context's deallocation
(`Box::from_raw`). -/
inductive Ev where
  | allocCtx
  | nativeRegister
  | nativeUnregister
  | freeCtx
  deriving DecidableEq, Repr

/-- `struct EffectiveModeObserver`: a raw handle pointer (null modelled
as `none`) and the stored raw context pointer (always kept, even after a
failed registration frees the allocation it points to). -/
structure EffectiveModeObserver where
  handle : Option Nat
  raw_context : Nat
  deriving DecidableEq, Repr

/-- `EffectiveModeObserver::new` from `src/main.rs`, with the native
registration call abstracted by its outcome `regResult` (`some h` =
success setting the handle, `none` = failure leaving the
null-initialised handle).  Returns the constructed observer and the
constructor's event trace: allocate the double-boxed context, call the
native register, and on failure immediately reclaim the context
(`Box::from_raw`). -/
def EffectiveModeObserver.new (regResult : Option Nat) :
    EffectiveModeObserver × List Ev :=
  match regResult with
  | some h =>
    ({ handle := some h, raw_context := 1 }, [Ev.allocCtx, Ev.nativeRegister])
  | none =>
    ({ handle := none, raw_context := 1 },
      [Ev.allocCtx, Ev.nativeRegister, Ev.freeCtx])

/-- `impl Drop for EffectiveModeObserver`: if the handle is non-null,
unregister from the native subsystem and then reclaim the context;
otherwise do nothing. -/
def EffectiveModeObserver.drop (o : EffectiveModeObserver) : List Ev :=
  match o.handle with
  | some _ => [Ev.nativeUnregister, Ev.freeCtx]
  | none => []

/-- The whole-lifetime event trace of an `EffectiveModeObserver`:
construction followed by its `Drop`. -/
def EffectiveModeObserver.lifetime (regResult : Option Nat) : List Ev :=
  (EffectiveModeObserver.new regResult).2 ++
    (EffectiveModeObserver.new regResult).1.drop

/-- `struct PowerSettingObserver`: an `Option<HPOWERNOTIFY>` handle and
the stored raw context pointer. -/
structure PowerSettingObserver where
  handle : Option Nat
  raw_context : Nat
  deriving DecidableEq, Repr

/-- `PowerSettingObserver::new` from `src/main.rs`, with
`RegisterPowerSettingNotification` abstracted by its outcome
(`some h` = `Ok(h)`, `none` = `Err`).  On `Err` the context is
reclaimed inside the constructor and the handle is `None`. -/
def PowerSettingObserver.new (guid : Nat) (regResult : Option Nat) :
    PowerSettingObserver × List Ev :=
  match regResult with
  | some h =>
    ({ handle := some h, raw_context := 1 },
      [Ev.allocCtx, Ev.nativeRegister])
  | none =>
    ({ handle := none, raw_context := 1 },
      [Ev.allocCtx, Ev.nativeRegister, Ev.freeCtx])

/-- `impl Drop for PowerSettingObserver`: `if let Some(h) = self.handle`
unregister and then reclaim the context, else do nothing. -/
def PowerSettingObserver.drop (o : PowerSettingObserver) : List Ev :=
  match o.handle with
  | some _ => [Ev.nativeUnregister, Ev.freeCtx]
  | none => []

/-- The whole-lifetime event trace of a `PowerSettingObserver`. -/
def PowerSettingObserver.lifetime (guid : Nat) (regResult : Option Nat) : List Ev :=
  (PowerSettingObserver.new guid regResult).2 ++
    (PowerSettingObserver.new guid regResult).1.drop

/-- There is exactly one `nativeUnregister` event strictly before the
first `freeCtx` event of the trace. -/
def unregisterOnceBeforeFree (tr : List Ev) : Prop :=
  (tr.takeWhile (fun e => e != Ev.freeCtx)).count Ev.nativeUnregister = 1

instance (tr : List Ev) : Decidable (unregisterOnceBeforeFree tr) := by
  unfold unregisterOnceBeforeFree
  infer_instance

/-!  Theorems settling the claims. -/

/-- C1: for every observer instance (either kind) whose native
registration succeeded, the whole-lifetime trace contains exactly one
native unregistration, and that unregistration occurs before the context
is freed; moreover, for every registration outcome (success or failure)
the context is freed exactly once over the whole lifetime — no leak, no
double free. -/
theorem c1_unregister_once_before_single_free (g : Nat) (r rAny : Option Nat)
    (h : r.isSome = true) :
    ((EffectiveModeObserver.lifetime rAny).count Ev.freeCtx = 1 ∧
      (PowerSettingObserver.lifetime g rAny).count Ev.freeCtx = 1) ∧
    (EffectiveModeObserver.lifetime r).count Ev.nativeUnregister = 1 ∧
    unregisterOnceBeforeFree (EffectiveModeObserver.lifetime r) ∧
    (PowerSettingObserver.lifetime g r).count Ev.nativeUnregister = 1 ∧
    unregisterOnceBeforeFree (PowerSettingObserver.lifetime g r) := by
  cases r with
  | none => simp at h
  | some hd =>
    cases rAny with
    | none => exact ⟨⟨rfl, rfl⟩, rfl, rfl, rfl, rfl⟩
    | some hd2 => exact ⟨⟨rfl, rfl⟩, rfl, rfl, rfl, rfl⟩

/-- Witness for C1 at a concrete successful registration. -/
theorem c1_witness :
    ((EffectiveModeObserver.lifetime (some 5)).count Ev.freeCtx = 1 ∧
      (PowerSettingObserver.lifetime 0 (some 5)).count Ev.freeCtx = 1) ∧
    (EffectiveModeObserver.lifetime (some 5)).count Ev.nativeUnregister = 1 ∧
    unregisterOnceBeforeFree (EffectiveModeObserver.lifetime (some 5)) ∧
    (PowerSettingObserver.lifetime 0 (some 5)).count Ev.nativeUnregister = 1 ∧
    unregisterOnceBeforeFree (PowerSettingObserver.lifetime 0 (some 5)) :=
  c1_unregister_once_before_single_free 0 (some 5) (some 5) rfl

/-- C2: when the native registration fails, both constructors reclaim
the context synchronously (the constructor trace ends with the free),
the observer is built with an absent handle, and its `Drop` performs no
native unregister call and no further free. -/
theorem c2_registration_failure_rollback :
    (EffectiveModeObserver.new none).2 =
        [Ev.allocCtx, Ev.nativeRegister, Ev.freeCtx] ∧
    (EffectiveModeObserver.new none).1.handle = none ∧
    (EffectiveModeObserver.new none).1.drop = [] ∧
    ∀ g : Nat,
      (PowerSettingObserver.new g none).2 =
          [Ev.allocCtx, Ev.nativeRegister, Ev.freeCtx] ∧
      (PowerSettingObserver.new g none).1.handle = none ∧
      (PowerSettingObserver.new g none).1.drop = [] :=
  ⟨rfl, rfl, rfl, fun _ => ⟨rfl, rfl, rfl⟩⟩

/-- C3: the setting-change trampoline dispatches the stored closure only
when the event-type tag equals `PBT_POWERSETTINGCHANGE`, the context
pointer is non-null, and the payload pointer is non-null. -/
theorem c3_dispatch_requires_tag_context_payload (context : Option Unit)
    (t : Nat) (s : Option POWERBROADCAST_SETTING)
    (h : (PowerSettingObserver.static_callback context t s).1.isSome = true) :
    t = PBT_POWERSETTINGCHANGE ∧ context.isSome = true ∧ s.isSome = true := by
  cases context with
  | none =>
    cases s with
    | none => simp [PowerSettingObserver.static_callback] at h
    | some p => simp [PowerSettingObserver.static_callback] at h
  | some u =>
    cases s with
    | none => simp [PowerSettingObserver.static_callback] at h
    | some p =>
      refine ⟨?_, rfl, rfl⟩
      by_contra ht
      simp [PowerSettingObserver.static_callback, ht] at h

/-- Witness for C3: a concrete invocation that dispatches. -/
theorem c3_witness :
    (PowerSettingObserver.static_callback (some ()) 32787
        (some ⟨0, 4, [1, 0, 0, 0]⟩)).1.isSome = true ∧
    (32787 = PBT_POWERSETTINGCHANGE ∧ (Option.some ()).isSome = true ∧
      (Option.some (⟨0, 4, [1, 0, 0, 0]⟩ : POWERBROADCAST_SETTING)).isSome
        = true) :=
  ⟨by decide,
    c3_dispatch_requires_tag_context_payload (some ()) 32787
      (some ⟨0, 4, [1, 0, 0, 0]⟩) (by decide)⟩

/-- C4: whenever the declared payload byte length differs from 4, the
setting-change trampoline dispatches nothing and returns status 0 — a
silent defensive no-op. -/
theorem c4_length_mismatch_silent_noop (context : Option Unit) (t : Nat)
    (p : POWERBROADCAST_SETTING) (h : p.DataLength ≠ 4) :
    PowerSettingObserver.static_callback context t (some p) = (none, 0) := by
  cases context with
  | none => rfl
  | some u =>
    by_cases ht : t = PBT_POWERSETTINGCHANGE
    · simp [PowerSettingObserver.static_callback, ht, size_of_u32, h]
    · simp [PowerSettingObserver.static_callback, ht]

/-- Witness for C4 at the declared lengths 0, 1, 2, 3, 5 and 8. -/
theorem c4_witness :
    ((0 : Nat) ≠ 4 ∧ PowerSettingObserver.static_callback (some ())
        PBT_POWERSETTINGCHANGE (some ⟨0, 0, [1, 0, 0, 0]⟩) = (none, 0)) ∧
    ((1 : Nat) ≠ 4 ∧ PowerSettingObserver.static_callback (some ())
        PBT_POWERSETTINGCHANGE (some ⟨0, 1, [1, 0, 0, 0]⟩) = (none, 0)) ∧
    ((2 : Nat) ≠ 4 ∧ PowerSettingObserver.static_callback (some ())
        PBT_POWERSETTINGCHANGE (some ⟨0, 2, [1, 0, 0, 0]⟩) = (none, 0)) ∧
    ((3 : Nat) ≠ 4 ∧ PowerSettingObserver.static_callback (some ())
        PBT_POWERSETTINGCHANGE (some ⟨0, 3, [1, 0, 0, 0]⟩) = (none, 0)) ∧
    ((5 : Nat) ≠ 4 ∧ PowerSettingObserver.static_callback (some ())
        PBT_POWERSETTINGCHANGE (some ⟨0, 5, [1, 0, 0, 0, 0]⟩) = (none, 0)) ∧
    ((8 : Nat) ≠ 4 ∧ PowerSettingObserver.static_callback (some ())
        PBT_POWERSETTINGCHANGE (some ⟨0, 8, [1, 0, 0, 0, 0, 0, 0, 0]⟩)
        = (none, 0)) :=
  ⟨⟨by decide, c4_length_mismatch_silent_noop _ _ _ (by decide)⟩,
   ⟨by decide, c4_length_mismatch_silent_noop _ _ _ (by decide)⟩,
   ⟨by decide, c4_length_mismatch_silent_noop _ _ _ (by decide)⟩,
   ⟨by decide, c4_length_mismatch_silent_noop _ _ _ (by decide)⟩,
   ⟨by decide, c4_length_mismatch_silent_noop _ _ _ (by decide)⟩,
   ⟨by decide, c4_length_mismatch_silent_noop _ _ _ (by decide)⟩⟩

/-- C5: with a valid tag, non-null context and payload, and declared
length exactly 4, the trampoline reads exactly the first four bytes of
the data region (whatever lies beyond them is ignored) and dispatches
their native-endian (little-endian) unsigned 32-bit decoding; in
particular bytes `[1,0,0,0]` decode to 1 and `[0,0,0,0]` to 0. -/
theorem c5_length4_decodes_first_four_bytes (g b0 b1 b2 b3 : Nat)
    (rest : List Nat) :
    PowerSettingObserver.static_callback (some ()) PBT_POWERSETTINGCHANGE
        (some ⟨g, 4, b0 :: b1 :: b2 :: b3 :: rest⟩)
      = (some (b0 + 256 * b1 + 65536 * b2 + 16777216 * b3), 0) ∧
    (PowerSettingObserver.static_callback (some ()) PBT_POWERSETTINGCHANGE
        (some ⟨g, 4, [1, 0, 0, 0]⟩)).1 = some 1 ∧
    (PowerSettingObserver.static_callback (some ()) PBT_POWERSETTINGCHANGE
        (some ⟨g, 4, [0, 0, 0, 0]⟩)).1 = some 0 := by
  refine ⟨?_, ?_, ?_⟩ <;>
    simp [PowerSettingObserver.static_callback, size_of_u32, try_into_4,
      u32_from_ne_bytes, List.take]

/-- C6: a null context pointer makes both trampolines perform no
dispatch; the setting trampoline still returns status 0. -/
theorem c6_null_context_no_dispatch (mode : Int) (t : Nat)
    (s : Option POWERBROADCAST_SETTING) :
    EffectiveModeObserver.static_cb mode none = none ∧
    PowerSettingObserver.static_callback none t s = (none, 0) := by
  refine ⟨rfl, ?_⟩
  cases s <;> rfl

/-- C7: when the data region holds fewer bytes than the declared length
of 4, the slice-to-array conversion fails and the decoded value falls
back to 0; the trampoline still dispatches (with 0) and returns status
0 rather than propagating a fault. -/
theorem c7_short_slice_falls_back_to_zero (g : Nat) (d : List Nat)
    (h : d.length < 4) :
    PowerSettingObserver.static_callback (some ()) PBT_POWERSETTINGCHANGE
        (some ⟨g, 4, d⟩) = (some 0, 0) := by
  have ht : (d.take 4).length ≠ 4 := by
    rw [List.length_take]
    omega
  have hle : ¬ 4 ≤ d.length := by omega
  simp [PowerSettingObserver.static_callback, size_of_u32, try_into_4, ht,
    hle, u32_from_ne_bytes]

/-- Witness for C7: a one-byte data region under a declared length 4. -/
theorem c7_witness :
    ([1] : List Nat).length < 4 ∧
    PowerSettingObserver.static_callback (some ()) PBT_POWERSETTINGCHANGE
        (some ⟨0, 4, [1]⟩) = (some 0, 0) :=
  ⟨by decide, c7_short_slice_falls_back_to_zero 0 [1] (by decide)⟩

/-- C8: `describe_effective_mode` is total (it is a Lean function), the
six descriptions of inputs 0–5 are pairwise distinct, and every other
input yields the single unknown description. -/
theorem c8_mode_descriptions_distinct_and_default :
    ([describe_effective_mode 0, describe_effective_mode 1,
      describe_effective_mode 2, describe_effective_mode 3,
      describe_effective_mode 4, describe_effective_mode 5]).Nodup ∧
    ∀ m : Int, m ∉ ([0, 1, 2, 3, 4, 5] : List Int) →
      describe_effective_mode m = "滑块: 未知" := by
  refine ⟨by decide, ?_⟩
  intro m hm
  simp only [List.mem_cons, List.mem_singleton, not_or] at hm
  obtain ⟨h0, h1, h2, h3, h4, h5⟩ := hm
  simp [describe_effective_mode, h0, h1, h2, h3, h4, h5]

/-- Witness for C8: input 7 is outside 0–5 and maps to the unknown
description. -/
theorem c8_witness :
    (7 : Int) ∉ ([0, 1, 2, 3, 4, 5] : List Int) ∧
    describe_effective_mode 7 = "滑块: 未知" :=
  ⟨by decide, c8_mode_descriptions_distinct_and_default.2 7 (by decide)⟩

/-- C9: the setting-change trampoline returns status 0 on every
invocation, whatever the tag, context, payload pointer or payload
length, and whether or not a dispatch occurred. -/
theorem c9_trampoline_always_returns_zero (context : Option Unit) (t : Nat)
    (s : Option POWERBROADCAST_SETTING) :
    (PowerSettingObserver.static_callback context t s).2 = 0 := by
  cases context with
  | none => cases s <;> rfl
  | some u =>
    cases s with
    | none => rfl
    | some p =>
      by_cases ht : t = PBT_POWERSETTINGCHANGE <;>
        by_cases hl : p.DataLength = size_of_u32 <;>
        simp [PowerSettingObserver.static_callback, ht, hl]

/-- C10: the `u32 → PowerSourceType` conversion is total, mapping 0 to
`AC`, 1 to `Battery`, 2 to `ShortTerm` and every other value to
`Unknown`. -/
theorem c10_power_source_from_u32 (v : Nat)
    (h : v ∉ ([0, 1, 2] : List Nat)) :
    PowerSourceType.from_u32 0 = PowerSourceType.AC ∧
    PowerSourceType.from_u32 1 = PowerSourceType.Battery ∧
    PowerSourceType.from_u32 2 = PowerSourceType.ShortTerm ∧
    PowerSourceType.from_u32 v = PowerSourceType.Unknown := by
  refine ⟨rfl, rfl, rfl, ?_⟩
  simp only [List.mem_cons, List.mem_singleton, not_or] at h
  obtain ⟨n, rfl⟩ : ∃ n, v = n + 3 := ⟨v - 3, by omega⟩
  rfl

/-- Witness for C10 at the value 7. -/
theorem c10_witness :
    (7 : Nat) ∉ ([0, 1, 2] : List Nat) ∧
    (PowerSourceType.from_u32 0 = PowerSourceType.AC ∧
     PowerSourceType.from_u32 1 = PowerSourceType.Battery ∧
     PowerSourceType.from_u32 2 = PowerSourceType.ShortTerm ∧
     PowerSourceType.from_u32 7 = PowerSourceType.Unknown) :=
  ⟨by decide, c10_power_source_from_u32 7 (by decide)⟩

end DeviceAware
